import Mathlib

/-!
# Shallow embedding of `hw1_Documented_code.py` (exercise-log manager)

The program keeps an in-memory pandas `DataFrame` of exercise records and a
CSV backing file.  The embedding models:

* a pandas `DataFrame` as an ordered list of (row label, record) pairs —
  pandas rows carry integer *labels* (the index) that are distinct from
  their *positions* once rows have been dropped;
* the CSV file as a list of textual rows, numeric cells being decimal digit
  sequences (most significant first) and the date cell the three digit
  groups of its `YYYY-MM-DD` rendering;
* `load_data` (`pd.read_csv`, which assigns a fresh `RangeIndex 0..n-1`, or
  an empty frame when the file is absent);
* `save_data` (`to_csv(index=False)`: labels are NOT written);
* `add_data` (`pd.concat(..., ignore_index=True)`: relabels to `0..n`);
* `edit_data` (`df.at[label, col] = v` for each of the four columns: when
  the label exists the row is overwritten, when it is missing pandas
  *enlarges* the frame, appending a new row with that label — no error);
* `delete_data` (`df.drop(label)`: removes the row with that label, raising
  `KeyError` when there is none);
* the menu-5 statistics (`statistics.mean` / `statistics.median` over the
  `Duration` column, guarded by an emptiness check) and the menu-6 filter
  (`df[df["Exercise"] == name]`).
-/

/-- One exercise record: the four typed column values of a row
(`ExerciseData` in the source; dates in this program are always plain
calendar dates, `strptime "%m/%d/%y"` yields midnight timestamps). -/
structure PyDate where
  year : Nat
  month : Nat
  day : Nat
deriving DecidableEq, Repr

structure ExerciseData where
  exercise : String
  duration : Int
  calories_burned : Int
  date : PyDate
deriving DecidableEq, Repr

/-- A pandas `DataFrame` over the fixed four-column schema: an ordered list
of rows, each carrying its integer index label. -/
abbrev DataFrame : Type := List (Nat × ExerciseData)

/-- The row labels (the pandas index), in row order. -/
def labels (df : DataFrame) : List Nat := df.map Prod.fst

/-- The records in row order, labels forgotten (the caller-visible table
contents). -/
def recordsOf (df : DataFrame) : List ExerciseData := df.map Prod.snd

/-! ## Decimal serialization (the textual CSV cells) -/

/-- Decimal digits, most significant first; the `fuel` argument only makes
the recursion structural (`n` itself is always enough fuel). -/
def digitsAux : Nat → Nat → List Nat
  | 0, n => [n]
  | fuel + 1, n => if n < 10 then [n] else digitsAux fuel (n / 10) ++ [n % 10]

/-- Decimal digits of a natural number, most significant first
(the digits of `str(n)` / what `to_csv` writes for an integer cell). -/
def digitsOf (n : Nat) : List Nat := digitsAux n n

/-- Value of a digit sequence (what `read_csv` / `int` parse back). -/
def valOf (ds : List Nat) : Nat := ds.foldl (fun a d => a * 10 + d) 0

/-- Zero-pad a digit sequence on the left to width `w` (the fixed-width
`YYYY-MM-DD` date rendering). -/
def padTo (w : Nat) (ds : List Nat) : List Nat :=
  List.replicate (w - ds.length) 0 ++ ds

/-- A signed integer cell: sign flag and the digits of the absolute value
(`str` of a python `int`). -/
def intCell (i : Int) : Bool × List Nat := (decide (i < 0), digitsOf i.natAbs)

/-- Parsing a signed integer cell. -/
def parseIntCell (c : Bool × List Nat) : Int :=
  if c.1 then -(valOf c.2 : Int) else (valOf c.2 : Int)

/-- A date cell: the three digit groups of the `YYYY-MM-DD` text pandas
writes for a (midnight) timestamp. -/
def dateCell (d : PyDate) : List Nat × List Nat × List Nat :=
  (padTo 4 (digitsOf d.year), padTo 2 (digitsOf d.month), padTo 2 (digitsOf d.day))

/-- Parsing a date cell (`read_csv` with `parse_dates=[Date]`). -/
def parseDateCell (c : List Nat × List Nat × List Nat) : PyDate :=
  ⟨valOf c.1, valOf c.2.1, valOf c.2.2⟩

/-- One data row of the CSV file: the four textual cells, in the fixed
column order `Exercise,Duration,Calories_Burned,Date`. -/
structure CsvRow where
  exerciseCell : String
  durationCell : Bool × List Nat
  caloriesCell : Bool × List Nat
  dateField : List Nat × List Nat × List Nat
deriving DecidableEq

/-- The CSV backing file: its data rows (the header is fixed). -/
abbrev CsvFile : Type := List CsvRow

/-- Serializing one record to a CSV row (`to_csv`). -/
def serializeRow (r : ExerciseData) : CsvRow :=
  ⟨r.exercise, intCell r.duration, intCell r.calories_burned, dateCell r.date⟩

/-- Parsing one CSV row back to a record (`read_csv` with typed columns). -/
def parseRow (c : CsvRow) : ExerciseData :=
  ⟨c.exerciseCell, parseIntCell c.durationCell, parseIntCell c.caloriesCell,
    parseDateCell c.dateField⟩

/-! ## The Record Store (`ExerciseManager`) -/

namespace ExerciseManager

/-- The fixed column schema (source line 49). -/
def columns : List String := ["Exercise", "Duration", "Calories_Burned", "Date"]

/-- `load_data`: `pd.read_csv(csv_file, parse_dates=[Date])` when the file
exists — which assigns the fresh row labels `0..n-1` (a `RangeIndex`) — and
an empty frame with the fixed columns when it is absent
(`FileNotFoundError` branch). -/
def load_data (file : Option CsvFile) : DataFrame :=
  match file with
  | none => []
  | some rows => (List.range rows.length).zip (rows.map parseRow)

/-- `save_data`: `to_csv(csv_file, index=False)` — serializes the records
in row order; the row labels are not written. -/
def save_data (df : DataFrame) : CsvFile :=
  df.map (fun p => serializeRow p.2)

/-- The manager's state: the in-memory frame `exercise_df` and the backing
file (`none` when no file exists on disk). -/
structure SysState where
  exercise_df : DataFrame
  file : Option CsvFile
deriving DecidableEq

/-- `get_all_data`: returns the in-memory frame. -/
def get_all_data (s : SysState) : DataFrame := s.exercise_df

/-- `add_data`: builds a one-row frame and
`pd.concat([exercise_df, new_row], ignore_index=True)` — the concatenated
frame is relabelled `0..n` — then `save_data`. -/
def add_data (s : SysState) (exercise : String) (duration : Int)
    (calories_burned : Int) (date : PyDate) : SysState :=
  let rs := recordsOf s.exercise_df ++ [⟨exercise, duration, calories_burned, date⟩]
  let df' : DataFrame := (List.range rs.length).zip rs
  ⟨df', some (save_data df')⟩

/-- `df.at[label, col] = v` over all four columns: when `label` is an
existing row label the row's four cells are overwritten; when it is not,
pandas setting-with-enlargement appends a new row with that label at the
end of the frame (no exception is raised). -/
def at_set (df : DataFrame) (label : Nat) (r : ExerciseData) : DataFrame :=
  if label ∈ labels df then
    df.map (fun p => if p.1 = label then (label, r) else p)
  else df ++ [(label, r)]

/-- `edit_data`: four `at` assignments (overwriting every cell of the row
with label `index`, or enlarging the frame when no such label exists),
then `save_data`. -/
def edit_data (s : SysState) (index : Nat) (exercise : String) (duration : Int)
    (calories_burned : Int) (date : PyDate) : SysState :=
  let df' := at_set s.exercise_df index ⟨exercise, duration, calories_burned, date⟩
  ⟨df', some (save_data df')⟩

/-- The pandas exception surfaced to the caller. -/
inductive PyError where
  | keyError
deriving DecidableEq

/-- `delete_data`: `exercise_df.drop(index)` drops the row whose *label* is
`index` and `save_data` persists the result; when no row has that label,
`drop` raises `KeyError` before anything is reassigned or saved, so the
state is unchanged. -/
def delete_data (s : SysState) (index : Nat) : Except PyError SysState :=
  if index ∈ labels s.exercise_df then
    let df' := s.exercise_df.filter (fun p => decide (p.1 ≠ index))
    .ok ⟨df', some (save_data df')⟩
  else .error .keyError

end ExerciseManager

/-! ## The Query Layer (menu options 5 and 6 of `ExerciseApp.run`) -/

/-- The `Duration` column of the frame. -/
def durations (df : DataFrame) : List Int := df.map (fun p => p.2.duration)

/-- `statistics.mean`: the exact arithmetic mean (python's `statistics`
module computes with exact fractions). -/
def statistics_mean (l : List Int) : ℚ := (l.sum : ℚ) / l.length

/-- `statistics.median`: sort; odd length gives the middle element, even
length the average of the two middle elements. -/
def statistics_median (l : List Int) : ℚ :=
  let s := l.insertionSort (· ≤ ·)
  if l.length % 2 = 1 then ((s.getD (l.length / 2) 0 : Int) : ℚ)
  else (((s.getD (l.length / 2 - 1) 0 : Int) : ℚ) + ((s.getD (l.length / 2) 0 : Int) : ℚ)) / 2

/-- Menu option 5: when the frame is non-empty, the mean and median of the
`Duration` column; when it is empty, no numeric result — the app prints
"No data available for analysis." instead (the `EmptyDataset` signal,
modelled as `none`). -/
def durationStats (df : DataFrame) : Option (ℚ × ℚ) :=
  if df.isEmpty then none
  else some (statistics_mean (durations df), statistics_median (durations df))

/-- Menu option 6, filter 1: `df[df["Exercise"] == name]` — the rows (with
their labels) whose `Exercise` cell equals `name` exactly, in order. -/
def filter_by_exercise (df : DataFrame) (name : String) : DataFrame :=
  df.filter (fun p => decide (p.2.exercise = name))

/-- Label-based row lookup: the record displayed against index label `i`
(pandas `df.loc[i]` / the row printed with label `i` by `get_all_data`). -/
def lookupLabel (df : DataFrame) (i : Nat) : Option ExerciseData :=
  (df.find? (fun p => p.1 == i)).map Prod.snd

/-- Decidable equality of call results (used only to evaluate concrete
examples). -/
instance {e a : Type} [DecidableEq e] [DecidableEq a] : DecidableEq (Except e a) :=
  fun x y =>
    match x, y with
    | .error u, .error v => decidable_of_iff (u = v) (iff_of_eq (Except.error.injEq u v)).symm
    | .ok u, .ok v => decidable_of_iff (u = v) (iff_of_eq (Except.ok.injEq u v)).symm
    | .error _, .ok _ => isFalse (fun h => Except.noConfusion h)
    | .ok _, .error _ => isFalse (fun h => Except.noConfusion h)

/-! ## Concrete fixtures used by the example-level theorems -/

def dA : PyDate := ⟨2024, 1, 15⟩

def recA : ExerciseData := ⟨"Running", 10, 100, dA⟩

def recB : ExerciseData := ⟨"Swimming", 20, 200, dA⟩

def recC : ExerciseData := ⟨"Cycling", 30, 300, dA⟩

/-- "running" differs from "Running" only in case. -/
def recLower : ExerciseData := ⟨"running", 5, 50, dA⟩

/-- A freshly loaded three-row frame (labels 0, 1, 2). -/
def df3 : DataFrame := [(0, recA), (1, recB), (2, recC)]

/-- A two-row frame with labels 0, 1. -/
def df2 : DataFrame := [(0, recA), (1, recB)]

/-- The frame left by `delete_data 0` on `df3`: two rows, but labels 1 and 2
— positional index 0 no longer corresponds to any row label. -/
def dfGap : DataFrame := [(1, recB), (2, recC)]

/-- A one-row frame with label 0, in sync with its backing file. -/
def s1 : ExerciseManager.SysState :=
  ⟨[(0, recA)], some (ExerciseManager.save_data [(0, recA)])⟩

/-- The manager state holding `dfGap`, in sync with its backing file. -/
def sGap : ExerciseManager.SysState :=
  ⟨dfGap, some (ExerciseManager.save_data dfGap)⟩

/-- One `add_data` step taking the record's fields from an `ExerciseData`
bundle (the console loop passes the four parsed values separately). -/
def add_step (s : ExerciseManager.SysState) (r : ExerciseData) : ExerciseManager.SysState :=
  ExerciseManager.add_data s r.exercise r.duration r.calories_burned r.date

/-! ## Helper lemmas -/

/-! ## Round-trip of the decimal cells -/

theorem valOf_append_singleton (ds : List Nat) (d : Nat) :
    valOf (ds ++ [d]) = valOf ds * 10 + d := by
  unfold valOf
  rw [List.foldl_append]
  rfl

theorem valOf_digitsAux (fuel : Nat) :
    ∀ n : Nat, n ≤ fuel → valOf (digitsAux fuel n) = n := by
  induction fuel with
  | zero =>
    intro n hn
    have : n = 0 := by omega
    subst this
    rfl
  | succ fuel ih =>
    intro n hn
    unfold digitsAux
    split
    · simp [valOf]
    · rw [valOf_append_singleton, ih (n / 10) (by omega)]
      omega

theorem valOf_digitsOf (n : Nat) : valOf (digitsOf n) = n :=
  valOf_digitsAux n n (Nat.le_refl n)

theorem foldl_replicate_zero (m : Nat) :
    List.foldl (fun a d => a * 10 + d) 0 (List.replicate m 0) = 0 := by
  induction m with
  | zero => rfl
  | succ m ih => simpa [List.replicate_succ] using ih

theorem valOf_padTo (w : Nat) (ds : List Nat) : valOf (padTo w ds) = valOf ds := by
  unfold padTo valOf
  rw [List.foldl_append, foldl_replicate_zero]

theorem parseIntCell_intCell (i : Int) : parseIntCell (intCell i) = i := by
  unfold parseIntCell intCell
  simp only [valOf_digitsOf]
  split <;> rename_i h <;>
    simp only [decide_eq_true_eq, decide_eq_false_iff_not] at h <;> omega

theorem parseDateCell_dateCell (d : PyDate) : parseDateCell (dateCell d) = d := by
  unfold parseDateCell dateCell
  simp [valOf_padTo, valOf_digitsOf]

theorem parseRow_serializeRow (r : ExerciseData) : parseRow (serializeRow r) = r := by
  cases r
  simp [parseRow, serializeRow, parseIntCell_intCell, parseDateCell_dateCell]


theorem zip_fst_snd (l : List (Nat × ExerciseData)) :
    (l.map Prod.fst).zip (l.map Prod.snd) = l := by
  induction l with
  | nil => rfl
  | cons p l ih => simp [ih]

/-- A frame whose labels are exactly `0..n-1` is the zip of that range with
its records. -/
theorem eq_zip_range_of_labels (df : DataFrame)
    (h : labels df = List.range df.length) :
    df = (List.range df.length).zip (recordsOf df) := by
  conv_lhs => rw [← zip_fst_snd df]
  rw [show df.map Prod.fst = labels df from rfl, h]
  rfl

theorem recordsOf_load_save (df : DataFrame) :
    recordsOf (ExerciseManager.load_data (some (ExerciseManager.save_data df))) = recordsOf df := by
  unfold ExerciseManager.load_data ExerciseManager.save_data recordsOf
  rw [List.map_snd_zip]
  · rw [List.map_map]
    refine List.map_congr_left fun p _ => ?_
    simp [Function.comp, parseRow_serializeRow]
  · simp

theorem labels_load (f : CsvFile) :
    labels (ExerciseManager.load_data (some f)) = List.range f.length := by
  unfold ExerciseManager.load_data labels
  rw [List.map_fst_zip]
  simp

/-- Rows with labels at or above `k` are untouched by filtering out a label
below `k`. -/
theorem filter_zip_range'_lt (rs : List ExerciseData) :
    ∀ (k j : Nat), j < k →
      ((List.range' k rs.length).zip rs).filter (fun p => decide (p.1 ≠ j))
        = (List.range' k rs.length).zip rs := by
  induction rs with
  | nil => intro k j _; rfl
  | cons r rs ih =>
    intro k j hj
    rw [show (r :: rs).length = rs.length + 1 from rfl, List.range'_succ]
    simp only [List.zip_cons_cons, List.filter_cons]
    rw [if_pos (by simpa using Nat.ne_of_gt hj), ih (k + 1) j (by omega)]

/-- Dropping the label `k + i` from a contiguously labelled frame erases
exactly the record at position `i`. -/
theorem filter_zip_range' (rs : List ExerciseData) :
    ∀ (k i : Nat), i < rs.length →
      (((List.range' k rs.length).zip rs).filter (fun p => decide (p.1 ≠ k + i))).map Prod.snd
        = rs.eraseIdx i := by
  induction rs with
  | nil => intro k i hi; simp at hi
  | cons r rs ih =>
    intro k i hi
    simp only [List.length_cons] at hi
    rw [show (r :: rs).length = rs.length + 1 from rfl, List.range'_succ]
    simp only [List.zip_cons_cons, List.filter_cons]
    cases i with
    | zero =>
      rw [if_neg (by simp), filter_zip_range'_lt rs (k + 1) (k + 0) (by omega)]
      rw [List.eraseIdx_cons_zero, List.map_snd_zip]
      simp
    | succ i =>
      rw [if_pos (by simp only [decide_eq_true_eq]; omega)]
      rw [show k + (i + 1) = (k + 1) + i from by omega, List.map_cons,
        ih (k + 1) i (by omega)]
      simp

/-- `k = 0` instance of `filter_zip_range'`. -/
theorem filter_zip_range (rs : List ExerciseData) (i : Nat) (hi : i < rs.length) :
    (((List.range rs.length).zip rs).filter (fun p => decide (p.1 ≠ i))).map Prod.snd
      = rs.eraseIdx i := by
  rw [List.range_eq_range']
  simpa using filter_zip_range' rs 0 i hi

/-- The record-level effect of `drop` on a contiguously labelled frame. -/
theorem delete_df_records (df : DataFrame) (i : Nat)
    (h : labels df = List.range df.length) (hi : i < df.length) :
    recordsOf (df.filter (fun p => decide (p.1 ≠ i))) = (recordsOf df).eraseIdx i := by
  have hlen : (recordsOf df).length = df.length := by simp [recordsOf]
  have hz := eq_zip_range_of_labels df h
  calc recordsOf (df.filter (fun p => decide (p.1 ≠ i)))
      = recordsOf (((List.range df.length).zip (recordsOf df)).filter
          (fun p => decide (p.1 ≠ i))) := by rw [← hz]
    _ = (recordsOf df).eraseIdx i := by
        rw [show df.length = (recordsOf df).length from hlen.symm]
        exact filter_zip_range (recordsOf df) i (by rw [hlen]; exact hi)

theorem add_step_file (s : ExerciseManager.SysState) (r : ExerciseData) :
    (add_step s r).file = some (ExerciseManager.save_data (add_step s r).exercise_df) := rfl

theorem foldl_add_step_file (rs : List ExerciseData) :
    ∀ s : ExerciseManager.SysState,
      s.file = some (ExerciseManager.save_data s.exercise_df) →
      (rs.foldl add_step s).file
        = some (ExerciseManager.save_data (rs.foldl add_step s).exercise_df) := by
  induction rs with
  | nil => intro s h; exact h
  | cons r rs ih => intro s _; exact ih (add_step s r) (add_step_file s r)

/-! ## Claim theorems -/

/-- C8: when the backing file does not exist, `load_data` takes the
`FileNotFoundError` branch and returns the empty frame with the fixed
column schema `Exercise, Duration, Calories_Burned, Date`; no error is
signalled (the function is total on the absent-file case). -/
theorem c8_load_absent_file :
    ExerciseManager.load_data none = ([] : DataFrame) ∧
    ExerciseManager.columns = ["Exercise", "Duration", "Calories_Burned", "Date"] :=
  ⟨rfl, rfl⟩

/-- C4: `delete_data` with an index that is no row label raises `KeyError`
(the `IndexOutOfRange` condition): the call returns the error and produces
no successor state, so the in-memory frame and the backing file are left
as they were. -/
theorem c4_delete_missing_label (s : ExerciseManager.SysState) (i : Nat)
    (h : i ∉ labels s.exercise_df) :
    ExerciseManager.delete_data s i = Except.error ExerciseManager.PyError.keyError := by
  simp [ExerciseManager.delete_data, h]

/-- Witness for C4: deleting index 0 from the reachable frame whose labels
are 1 and 2. -/
theorem c4_delete_missing_label_witness :
    (0 ∉ labels sGap.exercise_df) ∧
    ExerciseManager.delete_data sGap 0 = Except.error ExerciseManager.PyError.keyError :=
  ⟨by decide, c4_delete_missing_label sGap 0 (by decide)⟩

/-- C6: the statistics view on a frame with zero records yields no numeric
result (the app prints "No data available for analysis." instead), and
that signal (`none`) is distinct from every numeric pair, in particular
from a zero-valued statistic. -/
theorem c6_empty_dataset_signal :
    (∀ df : DataFrame, df.length = 0 → durationStats df = none) ∧
    (∀ mq : ℚ × ℚ, (none : Option (ℚ × ℚ)) ≠ some mq) := by
  constructor
  · intro df h
    rw [List.length_eq_zero.mp h]
    rfl
  · intro mq hmq
    exact Option.noConfusion hmq

/-- Witness for C6: the empty frame. -/
theorem c6_empty_dataset_signal_witness : durationStats [] = none :=
  c6_empty_dataset_signal.1 [] rfl

/-- C7: `df[df["Exercise"] == name]` returns exactly the rows whose
`Exercise` field equals `name` character for character, as a subsequence
of the frame (original relative order preserved); on a frame holding one
"Running" and one "running" row it returns exactly the "Running" row
(case-sensitive match). -/
theorem c7_filter_by_exercise_exact :
    (∀ (df : DataFrame) (name : String),
      List.Sublist (filter_by_exercise df name) df ∧
      ∀ p : Nat × ExerciseData,
        p ∈ filter_by_exercise df name ↔ p ∈ df ∧ p.2.exercise = name) ∧
    filter_by_exercise [(0, recA), (1, recLower)] "Running" = [(0, recA)] := by
  refine ⟨fun df name => ⟨List.filter_sublist df, fun p => ?_⟩, by decide⟩
  simp [filter_by_exercise, List.mem_filter]

/-- C1 counterexample: on the one-row frame with label 0 (length 1,
in sync with its file), `edit_data` at index 1 — one past the end — does
NOT signal `IndexOutOfRange` and does NOT leave the table unchanged:
pandas `.at` setting-with-enlargement appends a row labelled 1, the frame
grows to length 2, and the backing file is rewritten. -/
theorem c1_counterexample :
    (ExerciseManager.edit_data s1 1 "Swimming" 20 200 dA).exercise_df
        = [(0, recA), (1, recB)] ∧
    (ExerciseManager.edit_data s1 1 "Swimming" 20 200 dA).exercise_df
        ≠ s1.exercise_df ∧
    (ExerciseManager.edit_data s1 1 "Swimming" 20 200 dA).file ≠ s1.file := by
  decide

/-- C1 amended: on a frame whose row labels are exactly `0..n-1`, `edit_data`
with index `n` (one past the end) does not signal `IndexOutOfRange`; it
appends a new row labelled `n` carrying the four given field values and
rewrites the backing file to the enlarged table. -/
theorem c1_edit_one_past_end_enlarges (s : ExerciseManager.SysState) (n : Nat)
    (ex : String) (du cb : Int) (d : PyDate)
    (h : labels s.exercise_df = List.range n) :
    ExerciseManager.edit_data s n ex du cb d =
      ⟨s.exercise_df ++ [(n, ⟨ex, du, cb, d⟩)],
        some (ExerciseManager.save_data (s.exercise_df ++ [(n, ⟨ex, du, cb, d⟩)]))⟩ := by
  have hn : n ∉ labels s.exercise_df := by rw [h]; simp
  simp [ExerciseManager.edit_data, ExerciseManager.at_set, hn]

/-- Witness for the amended C1, at the one-row frame with label 0. -/
theorem c1_edit_one_past_end_enlarges_witness :
    (labels s1.exercise_df = List.range 1) ∧
    ExerciseManager.edit_data s1 1 "Swimming" 20 200 dA =
      ⟨s1.exercise_df ++ [(1, recB)],
        some (ExerciseManager.save_data (s1.exercise_df ++ [(1, recB)]))⟩ :=
  ⟨by decide, c1_edit_one_past_end_enlarges s1 1 "Swimming" 20 200 dA (by decide)⟩

/-- C2 counterexample: a fresh session loads a three-row file (labels
0, 1, 2) and the user deletes index 0, reaching the length-2 table `sGap`
whose row labels are 1 and 2.  On that table the claim's "valid index"
`i = 0` (`0 ≤ 0 < 2`) does not delete anything: `drop(0)` raises
`KeyError`, so no length-1 table results. -/
theorem c2_counterexample :
    ExerciseManager.delete_data
        ⟨ExerciseManager.load_data (some (ExerciseManager.save_data df3)),
          some (ExerciseManager.save_data df3)⟩ 0 = Except.ok sGap ∧
    sGap.exercise_df.length = 2 ∧
    ExerciseManager.delete_data sGap 0 = Except.error ExerciseManager.PyError.keyError := by
  decide

/-- C2 amended: on a frame whose row labels are exactly `0..n-1` (as after
any fresh load), `delete_data i` for `0 ≤ i < n` succeeds, and
`get_all_data` then yields a table of length `n-1` whose records are the
former records with position `i` erased — the record formerly at `i` is
gone and each record formerly at `j > i` sits at `j-1`; the shrunken table
is persisted.  (On frames with label gaps left by earlier deletes the
positional reading fails, as the counterexample shows: `drop` works on
labels, not positions.) -/
theorem c2_delete_shifts_records (s : ExerciseManager.SysState) (i : Nat)
    (h : labels s.exercise_df = List.range s.exercise_df.length)
    (hi : i < s.exercise_df.length) :
    ∃ t : ExerciseManager.SysState,
      ExerciseManager.delete_data s i = Except.ok t ∧
      recordsOf (ExerciseManager.get_all_data t)
        = (recordsOf (ExerciseManager.get_all_data s)).eraseIdx i ∧
      (ExerciseManager.get_all_data t).length = s.exercise_df.length - 1 ∧
      t.file = some (ExerciseManager.save_data t.exercise_df) := by
  have hm : i ∈ labels s.exercise_df := by rw [h]; exact List.mem_range.mpr hi
  refine ⟨⟨s.exercise_df.filter (fun p => decide (p.1 ≠ i)),
      some (ExerciseManager.save_data
        (s.exercise_df.filter (fun p => decide (p.1 ≠ i))))⟩, ?_, ?_, ?_, rfl⟩
  · simp [ExerciseManager.delete_data, hm]
  · exact delete_df_records s.exercise_df i h hi
  · have h2 := congrArg List.length (delete_df_records s.exercise_df i h hi)
    simp only [recordsOf, List.length_map] at h2
    rw [List.length_eraseIdx] at h2
    simpa [ExerciseManager.get_all_data, hi] using h2

/-- Witness for the amended C2: deleting index 1 from the freshly loaded
three-row frame `df3`. -/
theorem c2_delete_shifts_records_witness :
    (labels df3 = List.range df3.length) ∧ 1 < df3.length ∧
    ∃ t : ExerciseManager.SysState,
      ExerciseManager.delete_data ⟨df3, some (ExerciseManager.save_data df3)⟩ 1
          = Except.ok t ∧
      recordsOf (ExerciseManager.get_all_data t)
        = (recordsOf (ExerciseManager.get_all_data
            ⟨df3, some (ExerciseManager.save_data df3)⟩)).eraseIdx 1 ∧
      (ExerciseManager.get_all_data t).length = df3.length - 1 ∧
      t.file = some (ExerciseManager.save_data t.exercise_df) :=
  ⟨by decide, by decide,
    c2_delete_shifts_records ⟨df3, some (ExerciseManager.save_data df3)⟩ 1
      (by decide) (by decide)⟩

/-- C9: `edit_data` at an index that is an existing row label keeps the
table length, overwrites all four fields of the row carrying that label
with the given values, and leaves every row with a different label exactly
as it was (stated pointwise at each position `k`). -/
theorem c9_edit_changes_only_target (s : ExerciseManager.SysState) (i : Nat)
    (ex : String) (du cb : Int) (d : PyDate) (k : Nat) (p : Nat × ExerciseData)
    (h : i ∈ labels s.exercise_df) (hk : s.exercise_df[k]? = some p) :
    ((ExerciseManager.edit_data s i ex du cb d).exercise_df.length
      = s.exercise_df.length) ∧
    (p.1 = i → (ExerciseManager.edit_data s i ex du cb d).exercise_df[k]?
      = some (i, ⟨ex, du, cb, d⟩)) ∧
    (p.1 ≠ i → (ExerciseManager.edit_data s i ex du cb d).exercise_df[k]? = some p) := by
  refine ⟨by simp [ExerciseManager.edit_data, ExerciseManager.at_set, h], ?_, ?_⟩
  · intro hpi
    simp [ExerciseManager.edit_data, ExerciseManager.at_set, h, hk, hpi]
  · intro hpi
    simp [ExerciseManager.edit_data, ExerciseManager.at_set, h, hk, hpi]

/-- Witness for C9: editing label 0 of the two-row frame `df2` leaves the
row at position 1 untouched. -/
theorem c9_edit_changes_only_target_witness :
    (0 ∈ labels df2) ∧ df2[1]? = some (1, recB) ∧
    (((ExerciseManager.edit_data ⟨df2, some (ExerciseManager.save_data df2)⟩
        0 "Yoga" 45 150 dA).exercise_df.length = df2.length) ∧
    ((1, recB).1 = 0 → (ExerciseManager.edit_data ⟨df2, some (ExerciseManager.save_data df2)⟩
        0 "Yoga" 45 150 dA).exercise_df[1]? = some (0, ⟨"Yoga", 45, 150, dA⟩)) ∧
    ((1, recB).1 ≠ 0 → (ExerciseManager.edit_data ⟨df2, some (ExerciseManager.save_data df2)⟩
        0 "Yoga" 45 150 dA).exercise_df[1]? = some (1, recB))) :=
  ⟨by decide, by decide,
    c9_edit_changes_only_target ⟨df2, some (ExerciseManager.save_data df2)⟩
      0 "Yoga" 45 150 dA 1 (1, recB) (by decide) (by decide)⟩

/-- C3: after any non-empty sequence of `add_data` calls from any starting
state, the backing file equals the serialization written by the last save,
and freshly loading it reproduces the in-memory table record for record —
exercise names, durations, calories, and date values all round-trip
through the textual CSV format. -/
theorem c3_add_save_load_roundtrip (s : ExerciseManager.SysState)
    (rs : List ExerciseData) (h : rs ≠ []) :
    recordsOf (ExerciseManager.load_data (rs.foldl add_step s).file)
      = recordsOf (rs.foldl add_step s).exercise_df := by
  obtain ⟨r, rs2, rfl⟩ := List.exists_cons_of_ne_nil h
  rw [List.foldl_cons, foldl_add_step_file rs2 (add_step s r) (add_step_file s r),
    recordsOf_load_save]

/-- Witness for C3: one `add_data` call starting from the empty store. -/
theorem c3_add_save_load_roundtrip_witness :
    ([recA] ≠ ([] : List ExerciseData)) ∧
    recordsOf (ExerciseManager.load_data ([recA].foldl add_step ⟨[], none⟩).file)
      = recordsOf ([recA].foldl add_step ⟨[], none⟩).exercise_df :=
  ⟨by decide, c3_add_save_load_roundtrip ⟨[], none⟩ [recA] (by decide)⟩

/-- C5: on every non-empty frame the menu-5 analysis returns the exact
arithmetic mean of the `Duration` column together with the median in the
conventional sense — after sorting, the middle value when the count is
odd and the average of the two middle values when it is even; durations
`[10, 20, 30]` give mean 20 and median 20, durations `[10, 20]` give mean
15 and median 15. -/
theorem c5_duration_stats (df : DataFrame) (h : df ≠ []) :
    (durationStats df =
      some (((durations df).sum : ℚ) / ((durations df).length : ℚ),
        if (durations df).length % 2 = 1
        then ((((durations df).insertionSort (· ≤ ·)).getD
            ((durations df).length / 2) 0 : Int) : ℚ)
        else (((((durations df).insertionSort (· ≤ ·)).getD
              ((durations df).length / 2 - 1) 0 : Int) : ℚ)
          + ((((durations df).insertionSort (· ≤ ·)).getD
              ((durations df).length / 2) 0 : Int) : ℚ)) / 2)) ∧
    durationStats df3 = some (20, 20) ∧
    durationStats df2 = some (15, 15) := by
  refine ⟨?_, ?_, ?_⟩
  · cases df with
    | nil => exact absurd rfl h
    | cons p ps => rfl
  · norm_num [durationStats, statistics_mean, statistics_median, durations, df3,
      recA, recB, recC, List.insertionSort, List.orderedInsert]
  · norm_num [durationStats, statistics_mean, statistics_median, durations, df2,
      recA, recB, List.insertionSort, List.orderedInsert]

/-- Witness for C5, at the three-row frame `df3`. -/
theorem c5_duration_stats_witness :
    (df3 ≠ ([] : DataFrame)) ∧
    (durationStats df3 =
      some (((durations df3).sum : ℚ) / ((durations df3).length : ℚ),
        if (durations df3).length % 2 = 1
        then ((((durations df3).insertionSort (· ≤ ·)).getD
            ((durations df3).length / 2) 0 : Int) : ℚ)
        else (((((durations df3).insertionSort (· ≤ ·)).getD
              ((durations df3).length / 2 - 1) 0 : Int) : ℚ)
          + ((((durations df3).insertionSort (· ≤ ·)).getD
              ((durations df3).length / 2) 0 : Int) : ℚ)) / 2)) ∧
    durationStats df3 = some (20, 20) ∧
    durationStats df2 = some (15, 15) :=
  ⟨by decide, (c5_duration_stats df3 (by decide)).1,
    (c5_duration_stats df3 (by decide)).2.1, (c5_duration_stats df3 (by decide)).2.2⟩

/-- C10: the saved file carries no row labels (`index=False`), so a fresh
load always assigns the contiguous positional labels `0..n-1`: label gaps
left in the live frame by earlier deletes do not survive a save/load
cycle.  Concretely, the reachable frame `dfGap` displays its rows under
labels 1 and 2, with label 1 naming the "Swimming" record; after saving
and reloading, the same display index 1 names the "Cycling" record. -/
theorem c10_load_reindexes_positions :
    (∀ f : CsvFile, labels (ExerciseManager.load_data (some f)) = List.range f.length) ∧
    (∀ df : DataFrame,
      labels (ExerciseManager.load_data (some (ExerciseManager.save_data df)))
        = List.range df.length) ∧
    (labels dfGap ≠ List.range dfGap.length ∧
      lookupLabel dfGap 1 = some recB ∧
      lookupLabel (ExerciseManager.load_data (some (ExerciseManager.save_data dfGap))) 1
        = some recC ∧
      recB ≠ recC) := by
  refine ⟨labels_load, fun df => ?_, by decide⟩
  rw [labels_load]
  simp [ExerciseManager.save_data]
